import Mathlib

/-!
Verification of the core editing engine of svim-rs: a shallow embedding of
`src/editor.rs` (cursor movement, scrolling, the keypress state machine and
the save prompt) together with a Document model.  `document.rs` and `row.rs`
are not among the sources, so the Document operations are modelled from the
specification; everything else is translated directly from `editor.rs`.
Machine integers (`usize`) are modelled as `Nat` with explicit saturating
arithmetic.
-/

namespace Svim

/-- The maximum value of Rust's `usize` (64-bit platform), used to model
saturating arithmetic faithfully. -/
def USIZE_MAX : Nat := 2 ^ 64 - 1

/-- Rust's `usize::saturating_add`. -/
def satAdd (a b : Nat) : Nat := min (a + b) USIZE_MAX

/-- Rust's `usize::saturating_sub` (on `Nat`, truncated subtraction is exactly
saturating subtraction). -/
def satSub (a b : Nat) : Nat := a - b

/-- The key events delivered by the terminal (termion `event::Key`, the
variants the editor distinguishes plus representatives of the rest, which all
fall into the wildcard arms of the source matches). -/
inductive Key where
  | backspace
  | left
  | right
  | up
  | down
  | home
  | end_
  | pageUp
  | pageDown
  | delete
  | insert
  | null
  | esc
  | char (c : Char)
  | ctrl (c : Char)
  | alt (c : Char)
  deriving DecidableEq, Repr

/-- Rust's `char::is_control`: the Unicode Cc category,
`U+0000..=U+001F` and `U+007F..=U+009F`. -/
def is_control (c : Char) : Bool :=
  decide (c.toNat < 0x20) || (decide (0x7f ≤ c.toNat) && decide (c.toNat ≤ 0x9f))

/-- A text row.  Modelled from the spec: "Row — an ordered sequence of
Unicode characters; `length` = character count" (`row.rs` is not among the
sources). -/
abbrev Row := List Char

/-- The document.  Modelled from the spec: "an ordered sequence of Rows
(insertion order is line order), an optional file identity (absent ⇒
untitled), and a boolean dirty flag" (`document.rs` is not among the
sources; `editor.rs` accesses `file_name` as a public field). -/
structure Document where
  rows : List Row
  file_name : Option String
  dirty : Bool
  deriving DecidableEq, Repr

/-- Modelled from the spec: `Document::default()` is an empty Document, no
file identity, dirty = false. -/
def Document.default : Document := ⟨[], none, false⟩

/-- Modelled from the spec: `length()` is the row count. -/
def Document.len (d : Document) : Nat := d.rows.length

/-- Modelled from the spec: `row(y)` is the Row at index `y`, or absent if
`y ≥ row_count`. -/
def Document.row (d : Document) (y : Nat) : Option Row := d.rows.get? y

/-- Modelled from the spec: `is_empty()` holds iff the row count is 0. -/
def Document.is_empty (d : Document) : Bool := d.rows.isEmpty

/-- Modelled from the spec: `is_dirty()` returns the dirty flag. -/
def Document.is_dirty (d : Document) : Bool := d.dirty

/-- Modelled from the spec: `Row::insert(at, ch)` inserts `ch` before column
`at`; if `at > length` the character is appended. -/
def rowInsert (r : Row) (at_ : Nat) (c : Char) : Row :=
  if r.length ≤ at_ then r ++ [c] else r.take at_ ++ [c] ++ r.drop at_

/-- Modelled from the spec: `Document::insert(position, ch)`.  If
`position.y == row_count`, append a new Row containing `ch`; otherwise insert
into `row(position.y)` at `position.x`.  A line break instead splits the row
at `position.x`, the tail becoming a new row immediately after.  Marks
dirty = true. -/
def Document.insert (d : Document) (px py : Nat) (c : Char) : Document :=
  if c = '\n' then
    match d.rows.get? py with
    | some r =>
        let rows := d.rows.take py ++ [r.take px, r.drop px] ++ d.rows.drop (py + 1)
        { d with rows := rows, dirty := true }
    | none => { d with rows := d.rows ++ [[]], dirty := true }
  else if py = d.rows.length then
    { d with rows := d.rows ++ [[c]], dirty := true }
  else
    match d.rows.get? py with
    | some r => { d with rows := d.rows.set py (rowInsert r px c), dirty := true }
    | none => { d with dirty := true }

/-- Modelled from the spec: `Document::delete(position)`.  If `position.x`
equals the row length and a following row exists, merge the following row
into the current one and remove it; otherwise delete the character at
`position.x` (a row-level no-op past the row end).  No-op past the end of
the buffer.  Marks dirty = true. -/
def Document.delete (d : Document) (px py : Nat) : Document :=
  match d.rows.get? py with
  | none => d
  | some r =>
    if px = r.length then
      match d.rows.get? (py + 1) with
      | some nxt =>
        let rows := (d.rows.set py (r ++ nxt)).eraseIdx (py + 1)
        { d with rows := rows, dirty := true }
      | none => { d with dirty := true }
    else
      { d with rows := d.rows.set py (r.take px ++ r.drop (px + 1)), dirty := true }

/-- Modelled from the spec: `Document::save()` writes the rows to the file
identity; it fails if no file identity is set or the write fails (the write
outcome is abstracted by `write_ok`).  On success, dirty = false. -/
def Document.saveResult (d : Document) (write_ok : Bool) : Option Document :=
  match d.file_name with
  | none => none
  | some _ => if write_ok then some { d with dirty := false } else none

/-- A cursor or offset position (`editor.rs` 25-29). -/
structure Position where
  x : Nat
  y : Nat
  deriving DecidableEq, Repr

/-- The terminal size (`terminal.rs` 6-9; `u16` fields, widened to `usize`
wherever the editor uses them). -/
structure Size where
  width : Nat
  height : Nat
  deriving DecidableEq, Repr

/-- The editor state (`editor.rs` 15-23).  The status message keeps only its
text: the `Instant` timestamp only drives the 5-second display timeout, which
is wall-clock behavior outside the logical state. -/
structure Editor where
  should_quit : Bool
  terminal : Size
  cursor_posi : Position
  offset : Position
  document : Document
  status_msg : String
  quit_times : Nat
  deriving DecidableEq, Repr

/-- `QUIT_TIMES` (`editor.rs` 13). -/
def QUIT_TIMES : Nat := 3

/-- The row length the cursor code uses: `if let Some(row) = document.row(y)
{ row.len() } else { 0 }` (`editor.rs` 127-131 and 179-183). -/
def rowLen (d : Document) (y : Nat) : Nat :=
  match d.row y with
  | some r => r.length
  | none => 0

/-- The key-specific `(x, y)` update inside `Editor::move_cursor`
(`editor.rs` 133-177): the match over the pressed key, with `height` the row
count, `width` the current row's length and `terminal_height` the page
size. -/
def moveXY (d : Document) (terminal_height : Nat) (p : Position) (key : Key) : Nat × Nat :=
  let height := d.len
  let width := rowLen d p.y
  match key with
  | .up => (p.x, satSub p.y 1)
  | .down => if p.y < height then (p.x, satAdd p.y 1) else (p.x, p.y)
  | .left =>
      if 0 < p.x then (p.x - 1, p.y)
      else if 0 < p.y then
        match d.row (p.y - 1) with
        | some r => (r.length, p.y - 1)
        | none => (0, p.y - 1)
      else (p.x, p.y)
  | .right =>
      if p.x < width then (p.x + 1, p.y)
      else if p.y < height then (0, p.y + 1)
      else (p.x, p.y)
  | .pageUp =>
      (p.x, if terminal_height < p.y then satSub p.y terminal_height else 0)
  | .pageDown =>
      (p.x, if satAdd p.y terminal_height < height then satAdd p.y terminal_height else height)
  | .home => (0, p.y)
  | .end_ => (width, p.y)
  | _ => (p.x, p.y)

/-- `Editor::move_cursor` (`editor.rs` 121-189) as the pure function
`(Document, terminal height, Position, Key) → Position`: the key-specific
update `moveXY` followed by the unconditional re-clamp of `x` to the
(possibly new) row's length (`editor.rs` 179-186). -/
def move_cursor (d : Document) (terminal_height : Nat) (p : Position) (key : Key) : Position :=
  let xy := moveXY d terminal_height p key
  let width2 := rowLen d xy.2
  ⟨if width2 < xy.1 then width2 else xy.1, xy.2⟩

/-- `Editor::scroll` (`editor.rs` 228-244) as the pure function
`(terminal size, cursor, old offset) → new offset`; `y` and `x` are adjusted
independently, each by the source's if / else-if chain. -/
def scroll (size : Size) (cursor offset : Position) : Position :=
  let oy :=
    if cursor.y < offset.y then cursor.y
    else if satAdd offset.y size.height ≤ cursor.y then satAdd (satAdd cursor.y size.height) 1
    else offset.y
  let ox :=
    if cursor.x < offset.x then cursor.x
    else if satAdd offset.x size.width ≤ cursor.x then satAdd (satAdd cursor.x size.width) 1
    else offset.x
  ⟨ox, oy⟩

/-- The outcome of one iteration of the prompt loop body (`editor.rs`
322-349): either the loop continues with a new accumulated string, or the
function returns a result. -/
inductive PromptStep where
  | cont (acc : List Char)
  | finish (res : Option (List Char))
  deriving DecidableEq, Repr

/-- The accumulated-input update the prompt's match performs for the
non-returning keys (`editor.rs` 328, 332-336, 341): Backspace truncates the
last character, a non-control character is pushed, everything else leaves the
input unchanged. -/
def promptUpd (acc : List Char) (k : Key) : List Char :=
  match k with
  | .backspace => acc.dropLast
  | .char c => if is_control c then acc else acc ++ [c]
  | _ => acc

/-- One iteration of `Editor::prompt`'s loop (`editor.rs` 324-347) on the
accumulated input: Enter (`Char('\n')`) breaks and the function returns
`Some(result)`; Esc truncates the input to 0 and breaks, so the function
returns `Some` of the emptied input; any other key updates the input and then
the in-loop check returns `None` if the input is empty. -/
def promptStep (acc : List Char) (k : Key) : PromptStep :=
  if k = .char '\n' then .finish (some acc)
  else if k = .esc then .finish (some [])
  else
    let acc2 := promptUpd acc k
    if acc2 = [] then .finish none else .cont acc2

/-- `Editor::prompt` (`editor.rs` 322-349) run on a finite list of key
events, starting from accumulated input `acc`: `some r` when the function
returns with result `r` (`r : Option (List Char)`), `none` when the key list
is exhausted while the loop is still waiting for input.  Status-message
updates and screen refreshes are rendering effects outside the result. -/
def promptRun (acc : List Char) : List Key → Option (Option (List Char))
  | [] => none
  | k :: ks =>
    match promptStep acc k with
    | .finish r => some r
    | .cont acc2 => promptRun acc2 ks

/-- `Editor::save` (`editor.rs` 351-365).  The interactive prompt call is
abstracted by its result `prompt_res` (`self.prompt("Save as: ").unwrap_or(None)`),
and the file-write outcome by `write_ok`.  If there is no file identity and
the prompt result is absent, the save is aborted; otherwise a present prompt
result becomes the file identity and `Document::save` runs. -/
def Editor.save (prompt_res : Option String) (write_ok : Bool) (e : Editor) : Editor :=
  if e.document.file_name = none ∧ prompt_res = none then
    { e with status_msg := "Save aborted." }
  else
    let e2 :=
      if e.document.file_name = none then
        { e with document := { e.document with file_name := prompt_res } }
      else e
    match e2.document.saveResult write_ok with
    | some d => { e2 with document := d, status_msg := "File saved successfully." }
    | none => { e2 with status_msg := "File save failed." }

/-- The tail of `Editor::process_keypress` (`editor.rs` 112-116), run by
every arm except the counting-down quit arm (which returns early): the scroll
recomputation, then the reset of `quit_times` to `QUIT_TIMES` (clearing the
status message) when a countdown was in progress. -/
def afterKey (e : Editor) : Editor :=
  let e2 := { e with offset := scroll e.terminal e.cursor_posi e.offset }
  if e2.quit_times < QUIT_TIMES then
    { e2 with quit_times := QUIT_TIMES, status_msg := "" }
  else e2

/-- The warning status the quit countdown emits (`editor.rs` 86-89). -/
def quitWarning (n : Nat) : String :=
  "WARNING! File has unsaved changes. Press Ctrl-Q " ++ toString n ++ " more times to quit."

/-- `Editor::process_keypress` (`editor.rs` 81-119) on a key event.
`prompt_res` and `write_ok` are the oracles `Editor.save` needs; the other
arms ignore them.  `Ctrl('q')` with a dirty document and a positive counter
warns and decrements, returning early; otherwise it sets `should_quit`.
Arrow and page keys delegate to `move_cursor`; Backspace moves left then
deletes at the new cursor unless the cursor is at the buffer start; a
character inserts then moves right.  Everything else (including Home and End)
falls to the wildcard arm. -/
def process_keypress (prompt_res : Option String) (write_ok : Bool) (key : Key) (e : Editor) :
    Editor :=
  match key with
  | .ctrl c =>
    if c = 'q' then
      if 0 < e.quit_times ∧ e.document.is_dirty = true then
        { e with status_msg := quitWarning e.quit_times, quit_times := e.quit_times - 1 }
      else afterKey { e with should_quit := true }
    else if c = 's' then afterKey (Editor.save prompt_res write_ok e)
    else afterKey e
  | .up | .down | .left | .right | .pageDown | .pageUp =>
    afterKey { e with cursor_posi := move_cursor e.document e.terminal.height e.cursor_posi key }
  | .backspace =>
    if 0 < e.cursor_posi.x ∨ 0 < e.cursor_posi.y then
      let p := move_cursor e.document e.terminal.height e.cursor_posi .left
      afterKey { e with cursor_posi := p, document := e.document.delete p.x p.y }
    else afterKey e
  | .char c =>
    let e2 := { e with document := e.document.insert e.cursor_posi.x e.cursor_posi.y c }
    afterKey { e2 with
      cursor_posi := move_cursor e2.document e2.terminal.height e2.cursor_posi .right }
  | _ => afterKey e

/-- `Editor::default` (`editor.rs` 246-269).  The command-line argument is
`file_arg`; the outcome of `Document::open` (whose implementation is not
among the sources; Modelled from the spec: it "fails with an OpenError on
missing file or read failure") is abstracted by `open_res`.  On open failure
the editor falls back to `Document::default` and an error status naming the
file; the cursor, the offset and `should_quit` always start at their
defaults, with the counter at `QUIT_TIMES`. -/
def editor_default (size : Size) (file_arg : Option String) (open_res : Option Document) :
    Editor :=
  let initial_status := "HELP: Ctrl-Q = quit | HELP: Ctrl-S = save"
  match file_arg with
  | some file_name =>
    match open_res with
    | some doc => ⟨false, size, ⟨0, 0⟩, ⟨0, 0⟩, doc, initial_status, QUIT_TIMES⟩
    | none =>
      ⟨false, size, ⟨0, 0⟩, ⟨0, 0⟩, Document.default,
        "Err: Cound not open file: " ++ file_name, QUIT_TIMES⟩
  | none => ⟨false, size, ⟨0, 0⟩, ⟨0, 0⟩, Document.default, initial_status, QUIT_TIMES⟩

section Lemmas

lemma satAdd_le_add (a b : Nat) : satAdd a b ≤ a + b := Nat.min_le_left _ _

lemma satSub_le (a b : Nat) : satSub a b ≤ a := Nat.sub_le _ _

lemma afterKey_should_quit (e : Editor) : (afterKey e).should_quit = e.should_quit := by
  unfold afterKey
  dsimp only
  split <;> rfl

lemma afterKey_document (e : Editor) : (afterKey e).document = e.document := by
  unfold afterKey
  dsimp only
  split <;> rfl

lemma afterKey_cursor (e : Editor) : (afterKey e).cursor_posi = e.cursor_posi := by
  unfold afterKey
  dsimp only
  split <;> rfl

lemma afterKey_quit_times_of_lt (e : Editor) (h : e.quit_times < QUIT_TIMES) :
    (afterKey e).quit_times = QUIT_TIMES := by
  unfold afterKey
  dsimp only
  rw [if_pos h]

lemma save_quit_times (pr : Option String) (wk : Bool) (e : Editor) :
    (Editor.save pr wk e).quit_times = e.quit_times := by
  unfold Editor.save
  dsimp only
  split
  · rfl
  · split <;> split <;> rfl

lemma quit_press_counting (pr : Option String) (wk : Bool) (e : Editor)
    (hd : e.document.dirty = true) (hq : 0 < e.quit_times) :
    process_keypress pr wk (.ctrl 'q') e =
      { e with status_msg := quitWarning e.quit_times, quit_times := e.quit_times - 1 } := by
  unfold process_keypress
  simp [Document.is_dirty, hd, hq]

lemma quit_press_firing (pr : Option String) (wk : Bool) (e : Editor)
    (hq : e.quit_times = 0) :
    (process_keypress pr wk (.ctrl 'q') e).should_quit = true := by
  simp [process_keypress, hq, afterKey_should_quit]

lemma quit_times_reset (pr : Option String) (wk : Bool) (k : Key) (e : Editor)
    (hk : k ≠ .ctrl 'q') (hlt : e.quit_times < QUIT_TIMES) :
    (process_keypress pr wk k e).quit_times = QUIT_TIMES := by
  cases k
  case ctrl c =>
    simp only [process_keypress]
    by_cases hcq : c = 'q'
    · exact absurd (by rw [hcq]) hk
    · rw [if_neg hcq]
      by_cases hcs : c = 's'
      · rw [if_pos hcs]
        exact afterKey_quit_times_of_lt _ (by rw [save_quit_times]; exact hlt)
      · rw [if_neg hcs]
        exact afterKey_quit_times_of_lt _ hlt
  case backspace =>
    simp only [process_keypress]
    split
    · exact afterKey_quit_times_of_lt _ hlt
    · exact afterKey_quit_times_of_lt _ hlt
  all_goals simp only [process_keypress]
  all_goals exact afterKey_quit_times_of_lt _ hlt

lemma row_exists_of_lt (d : Document) (y : Nat) (h : y < d.len) :
    ∃ r, d.row y = some r := by
  cases hr : d.row y with
  | some r => exact ⟨r, rfl⟩
  | none =>
    exact absurd (List.get?_eq_none.mp hr) (by simpa [Document.len] using h)

end Lemmas

/-- C1: the spec claims `Editor::scroll` re-establishes
`offset.y ≤ cursor.y < offset.y + viewport_height`, with
`offset.y = cursor.y - viewport_height + 1` when the cursor is below the
window.  The code evaluated at viewport 10×2, cursor `(0, 5)`, old offset
`(0, 0)` instead uses `saturating_add`: it sets `offset.y` to
`cursor.y + height + 1 = 8`, which violates the invariant
(`8 ≤ 5` is false) and differs from the claimed `5 - 2 + 1 = 4`. -/
theorem c1_scroll_breaks_visibility_invariant :
    scroll ⟨10, 2⟩ ⟨0, 5⟩ ⟨0, 0⟩ = ⟨0, 8⟩ ∧
    ¬ ((scroll ⟨10, 2⟩ ⟨0, 5⟩ ⟨0, 0⟩).y ≤ 5 ∧ 5 < (scroll ⟨10, 2⟩ ⟨0, 5⟩ ⟨0, 0⟩).y + 2) ∧
    (scroll ⟨10, 2⟩ ⟨0, 5⟩ ⟨0, 0⟩).y ≠ 5 - 2 + 1 := by
  decide

/-- A one-line document "hello world" with the cursor at column 5, used to
evaluate concrete keypresses. -/
def eHome : Editor :=
  ⟨false, ⟨10, 2⟩, ⟨5, 0⟩, ⟨0, 0⟩, ⟨[("hello world".toList)], some "demo.txt", false⟩, "", 3⟩

/-- C4: the spec claims Home sets `x = 0` and End sets `x = length(row(y))`,
the dispatcher delegating both to the cursor controller.  In the code the
dispatcher's arm (`editor.rs` 96-98) lists only the arrow and page keys, so
Home and End fall into the wildcard arm and the whole editor state is
unchanged — even though `Editor::move_cursor` itself (`editor.rs` 174-175)
would handle both keys exactly as the spec says, as the last two conjuncts
show. -/
theorem c4_home_end_not_dispatched :
    process_keypress none false .home eHome = eHome ∧
    process_keypress none false .end_ eHome = eHome ∧
    move_cursor eHome.document eHome.terminal.height eHome.cursor_posi .home = ⟨0, 0⟩ ∧
    move_cursor eHome.document eHome.terminal.height eHome.cursor_posi .end_ = ⟨11, 0⟩ := by
  decide

/-- C8: when the startup file cannot be opened (`open_res = none`), editor
construction still yields an editor: the document falls back to
`Document::default` (untitled, empty, clean) and the status message is the
error notice naming the file; and for every startup the editor begins with
`should_quit = false` and cursor and offset at `(0, 0)`
(`editor.rs` 246-269). -/
theorem c8_startup_fallback_and_defaults (size : Size) (name : String)
    (fa : Option String) (od : Option Document) :
    (editor_default size (some name) none).document = Document.default ∧
    (editor_default size (some name) none).document.file_name = none ∧
    (editor_default size (some name) none).document.dirty = false ∧
    (editor_default size (some name) none).document.rows = [] ∧
    (editor_default size (some name) none).status_msg = "Err: Cound not open file: " ++ name ∧
    (editor_default size fa od).should_quit = false ∧
    (editor_default size fa od).cursor_posi = ⟨0, 0⟩ ∧
    (editor_default size fa od).offset = ⟨0, 0⟩ := by
  refine ⟨rfl, rfl, rfl, rfl, rfl, ?_, ?_, ?_⟩ <;> cases fa <;> cases od <;> rfl

/-- C3: the spec claims Escape clears the accumulated input and makes the
prompt return an absent result.  In the code (`editor.rs` 337-340) Esc
truncates the input and then breaks out of the loop, past the in-loop
empty-input check, so the function returns `Some("")`: typing "ab" and
pressing Esc yields a present empty result, and the Esc iteration always
ends the prompt with `Some("")` — never `None`. -/
theorem c3_escape_returns_present_empty :
    promptRun [] [Key.char 'a', Key.char 'b', Key.esc] = some (some []) ∧
    ∀ s : List Char, promptStep s .esc = .finish (some []) := by
  exact ⟨by decide, fun s => rfl⟩

/-- A dirty one-line document with the counter at its maximum, the cursor at
the origin, used to evaluate the quit protocol and Backspace concretely. -/
def eDirty : Editor :=
  ⟨false, ⟨10, 2⟩, ⟨0, 0⟩, ⟨0, 0⟩, ⟨[['a']], some "f.txt", true⟩, "", 3⟩

/-- C2 counterexample: from a dirty document with the counter at its maximum
of 3, three consecutive Ctrl-Q presses do not quit — `should_quit` is still
false, because the first press only warns (showing 3) and decrements. -/
theorem c2_three_quit_presses_do_not_quit :
    (process_keypress none false (.ctrl 'q') (process_keypress none false (.ctrl 'q')
      (process_keypress none false (.ctrl 'q') eDirty))).should_quit = false := by
  decide

/-- C2 amended: with a dirty document and the counter at its maximum of 3,
exactly 4 consecutive Ctrl-Q presses are needed to quit (the first warns that
3 more are required); the first three leave `should_quit` false and the
fourth sets it; and any non-quit key pressed while the countdown is running
resets the counter to its maximum of 3 (`editor.rs` 84-94, 113-116). -/
theorem c2_quit_needs_four_presses (e : Editor) (pr : Option String) (wk : Bool)
    (hd : e.document.dirty = true) (hq : e.quit_times = 3) (hs : e.should_quit = false) :
    (process_keypress pr wk (.ctrl 'q') e).should_quit = false ∧
    (process_keypress pr wk (.ctrl 'q')
      (process_keypress pr wk (.ctrl 'q') e)).should_quit = false ∧
    (process_keypress pr wk (.ctrl 'q') (process_keypress pr wk (.ctrl 'q')
      (process_keypress pr wk (.ctrl 'q') e))).should_quit = false ∧
    (process_keypress pr wk (.ctrl 'q') (process_keypress pr wk (.ctrl 'q')
      (process_keypress pr wk (.ctrl 'q')
        (process_keypress pr wk (.ctrl 'q') e)))).should_quit = true ∧
    ∀ (k : Key) (e2 : Editor), k ≠ .ctrl 'q' → e2.quit_times < 3 →
      (process_keypress pr wk k e2).quit_times = 3 := by
  have s1 := quit_press_counting pr wk e hd (by omega)
  have hd1 : (process_keypress pr wk (.ctrl 'q') e).document.dirty = true := by
    rw [s1]; exact hd
  have hq1 : (process_keypress pr wk (.ctrl 'q') e).quit_times = 2 := by
    rw [s1]; simp [hq]
  have hs1 : (process_keypress pr wk (.ctrl 'q') e).should_quit = false := by
    rw [s1]; exact hs
  have s2 := quit_press_counting pr wk _ hd1 (by omega)
  have hd2 : (process_keypress pr wk (.ctrl 'q')
      (process_keypress pr wk (.ctrl 'q') e)).document.dirty = true := by
    rw [s2]; exact hd1
  have hq2 : (process_keypress pr wk (.ctrl 'q')
      (process_keypress pr wk (.ctrl 'q') e)).quit_times = 1 := by
    rw [s2]; simp [hq1]
  have hs2 : (process_keypress pr wk (.ctrl 'q')
      (process_keypress pr wk (.ctrl 'q') e)).should_quit = false := by
    rw [s2]; exact hs1
  have s3 := quit_press_counting pr wk _ hd2 (by omega)
  have hq3 : (process_keypress pr wk (.ctrl 'q') (process_keypress pr wk (.ctrl 'q')
      (process_keypress pr wk (.ctrl 'q') e))).quit_times = 0 := by
    rw [s3]; simp [hq2]
  have hs3 : (process_keypress pr wk (.ctrl 'q') (process_keypress pr wk (.ctrl 'q')
      (process_keypress pr wk (.ctrl 'q') e))).should_quit = false := by
    rw [s3]; exact hs2
  refine ⟨hs1, hs2, hs3, quit_press_firing pr wk _ hq3, ?_⟩
  intro k e2 hk hlt
  simpa [QUIT_TIMES] using quit_times_reset pr wk k e2 hk (by simpa [QUIT_TIMES] using hlt)

/-- C2 witness: the amended protocol evaluated on the concrete dirty editor:
the fourth press quits, and an Up key pressed mid-countdown (counter 1)
resets the counter to 3. -/
theorem c2_quit_needs_four_presses_witness :
    (process_keypress none false (.ctrl 'q') (process_keypress none false (.ctrl 'q')
      (process_keypress none false (.ctrl 'q')
        (process_keypress none false (.ctrl 'q') eDirty)))).should_quit = true ∧
    (process_keypress none false .up { eDirty with quit_times := 1 }).quit_times = 3 :=
  ⟨(c2_quit_needs_four_presses eDirty none false rfl rfl rfl).2.2.2.1,
   (c2_quit_needs_four_presses eDirty none false rfl rfl rfl).2.2.2.2 .up
     { eDirty with quit_times := 1 } (by decide) (by decide)⟩

/-- C9: Backspace with the cursor at the buffer start `(0, 0)` leaves the
document (content, file identity and dirty flag) and the cursor position
unchanged: the dispatcher's guard (`editor.rs` 100) skips both the cursor
move and the delete. -/
theorem c9_backspace_at_origin_noop (pr : Option String) (wk : Bool) (e : Editor)
    (h : e.cursor_posi = ⟨0, 0⟩) :
    (process_keypress pr wk .backspace e).document = e.document ∧
    (process_keypress pr wk .backspace e).cursor_posi = ⟨0, 0⟩ := by
  have hstep : process_keypress pr wk .backspace e = afterKey e := by
    simp [process_keypress, h]
  rw [hstep, afterKey_document, afterKey_cursor, h]
  exact ⟨rfl, rfl⟩

/-- C9 witness: `c9_backspace_at_origin_noop` evaluated on the concrete
dirty editor whose cursor is at the origin. -/
theorem c9_backspace_at_origin_noop_witness :
    (process_keypress none false .backspace eDirty).document = eDirty.document ∧
    (process_keypress none false .backspace eDirty).cursor_posi = ⟨0, 0⟩ :=
  c9_backspace_at_origin_noop none false eDirty rfl

/-- C7: during the prompt, any key that is neither Enter nor Esc and leaves
the accumulated input empty (a Backspace removing the last character, or any
key that adds nothing to an empty input) makes the prompt return `None`
immediately, whatever keys would follow (`editor.rs` 344-346). -/
theorem c7_prompt_aborts_when_input_empties (s : List Char) (k : Key) (ks : List Key)
    (h1 : k ≠ .char '\n') (h2 : k ≠ .esc) (h3 : promptUpd s k = []) :
    promptRun s (k :: ks) = some none := by
  unfold promptRun
  unfold promptStep
  simp [h1, h2, h3]

/-- C7 witness: a Backspace deleting the only accumulated character aborts
the prompt at once, ignoring the key after it. -/
theorem c7_prompt_aborts_witness :
    promptRun ['a'] [Key.backspace, Key.char 'x'] = some none :=
  c7_prompt_aborts_when_input_empties ['a'] .backspace [Key.char 'x']
    (by decide) (by decide) (by decide)

/-- C5: the boundary wraps of `Editor::move_cursor` (`editor.rs` 140-159):
Left at `(0, y)` with `0 < y ≤ row_count` lands at the end of the previous
line, `(length(row(y-1)), y-1)`; Right at `(length(row(y)), y)` with
`y < row_count` lands at the start of the next line, `(0, y+1)`. -/
theorem c5_line_boundary_wrap (d : Document) (th : Nat) (y : Nat) :
    (0 < y → y ≤ d.len →
      move_cursor d th ⟨0, y⟩ .left = ⟨rowLen d (y - 1), y - 1⟩) ∧
    (y < d.len →
      move_cursor d th ⟨rowLen d y, y⟩ .right = ⟨0, y + 1⟩) := by
  constructor
  · intro hy0 hylen
    obtain ⟨r, hr⟩ := row_exists_of_lt d (y - 1) (by omega)
    have hxy : moveXY d th ⟨0, y⟩ .left = (r.length, y - 1) := by
      simp [moveXY, hy0, hr]
    simp only [move_cursor]
    rw [hxy]
    simp [rowLen, hr]
  · intro hy
    have hxy : moveXY d th ⟨rowLen d y, y⟩ .right = (0, y + 1) := by
      simp [moveXY, hy]
    simp only [move_cursor]
    rw [hxy]
    simp

/-- C5 witness: the spec's scenario — two lines "ab", "cd": Left at `(0, 1)`
yields `(2, 0)`, and Right at `(2, 1)` (end of the second line) yields
`(0, 2)`, the virtual append position. -/
theorem c5_line_boundary_wrap_witness :
    move_cursor ⟨[['a', 'b'], ['c', 'd']], none, false⟩ 2 ⟨0, 1⟩ .left = ⟨2, 0⟩ ∧
    move_cursor ⟨[['a', 'b'], ['c', 'd']], none, false⟩ 2 ⟨2, 1⟩ .right = ⟨0, 2⟩ := by
  constructor
  · exact ((c5_line_boundary_wrap ⟨[['a', 'b'], ['c', 'd']], none, false⟩ 2 1).1
      (by decide) (by decide)).trans (by decide)
  · exact (c5_line_boundary_wrap ⟨[['a', 'b'], ['c', 'd']], none, false⟩ 2 1).2 (by decide)

/-- C6: `Editor::move_cursor` preserves the Position invariant: starting
from `y ≤ row_count` and `x ≤ length(row(y))` (where the length of the
virtual append row is 0), the resulting position satisfies both bounds for
every key — the final re-clamp (`editor.rs` 179-186) caps `x` at the new
row's length, and every `y` update stays within `[0, row_count]`. -/
theorem c6_move_cursor_preserves_invariant (d : Document) (th : Nat) (p : Position)
    (k : Key) (hy : p.y ≤ d.len) (hx : p.x ≤ rowLen d p.y) :
    (move_cursor d th p k).y ≤ d.len ∧
    (move_cursor d th p k).x ≤ rowLen d (move_cursor d th p k).y := by
  have hy2 : (moveXY d th p k).2 ≤ d.len := by
    cases k
    case up =>
      have := satSub_le p.y 1
      simp only [moveXY]
      omega
    case down =>
      simp only [moveXY]
      split
      · have := satAdd_le_add p.y 1
        simp only []
        omega
      · exact hy
    case left =>
      simp only [moveXY]
      split
      · exact hy
      · split
        · cases hr : d.row (p.y - 1) <;> simp [hr] <;> omega
        · exact hy
    case right =>
      simp only [moveXY]
      split
      · exact hy
      · split
        · simp only []
          omega
        · exact hy
    case pageUp =>
      simp only [moveXY]
      split
      · have := satSub_le p.y th
        omega
      · omega
    case pageDown =>
      simp only [moveXY]
      split
      · omega
      · omega
    all_goals simpa [moveXY] using hy
  constructor
  · simpa [move_cursor] using hy2
  · simp only [move_cursor]
    split <;> omega

/-- C6 witness: the invariant applied to a Down press at the end of the
first of two lines. -/
theorem c6_move_cursor_preserves_invariant_witness :
    (move_cursor ⟨[['a', 'b'], ['c', 'd']], none, false⟩ 2 ⟨2, 0⟩ .down).y ≤
      Document.len ⟨[['a', 'b'], ['c', 'd']], none, false⟩ ∧
    (move_cursor ⟨[['a', 'b'], ['c', 'd']], none, false⟩ 2 ⟨2, 0⟩ .down).x ≤
      rowLen ⟨[['a', 'b'], ['c', 'd']], none, false⟩
        (move_cursor ⟨[['a', 'b'], ['c', 'd']], none, false⟩ 2 ⟨2, 0⟩ .down).y :=
  c6_move_cursor_preserves_invariant ⟨[['a', 'b'], ['c', 'd']], none, false⟩ 2 ⟨2, 0⟩ .down
    (by decide) (by decide)

section PromptNoControl

lemma promptUpd_no_control (s : List Char) (k : Key)
    (hs : ∀ c ∈ s, is_control c = false) :
    ∀ c ∈ promptUpd s k, is_control c = false := by
  cases k
  case backspace =>
    intro c hc
    exact hs c (List.mem_of_mem_dropLast hc)
  case char c0 =>
    intro c hc
    by_cases h : is_control c0
    · simp only [promptUpd, if_pos h] at hc
      exact hs c hc
    · simp only [promptUpd, if_neg h, List.mem_append, List.mem_singleton] at hc
      rcases hc with hc | hc
      · exact hs c hc
      · rw [hc]
        simpa using h
  all_goals exact hs

lemma promptRun_no_control (ks : List Key) :
    ∀ (s : List Char), (∀ c ∈ s, is_control c = false) →
      ∀ (r : List Char), promptRun s ks = some (some r) →
        ∀ c ∈ r, is_control c = false := by
  induction ks with
  | nil =>
    intro s _ r h
    simp [promptRun] at h
  | cons k ks ih =>
    intro s hs r h
    rw [promptRun] at h
    by_cases h1 : k = .char '\n'
    · rw [promptStep, if_pos h1] at h
      obtain rfl : s = r := by simpa using h
      exact hs
    · by_cases h2 : k = .esc
      · rw [promptStep, if_neg h1, if_pos h2] at h
        obtain rfl : ([] : List Char) = r := by simpa using h
        simp
      · rw [promptStep, if_neg h1, if_neg h2] at h
        by_cases h3 : promptUpd s k = []
        · rw [if_pos h3] at h
          simp at h
        · rw [if_neg h3] at h
          exact ih (promptUpd s k) (promptUpd_no_control s k hs) r h

end PromptNoControl

/-- C10: every string the prompt returns inside a present result contains no
control character: starting from the empty accumulated input, each appended
character passed the `is_control` check and Backspace/Esc only remove
characters (`editor.rs` 322-349). -/
theorem c10_prompt_result_no_control_chars (ks : List Key) (r : List Char)
    (h : promptRun [] ks = some (some r)) :
    ∀ c ∈ r, is_control c = false :=
  promptRun_no_control ks [] (by simp) r h

/-- C10 witness: typing "a" then Enter returns `Some "a"`, whose only
character is not a control character. -/
theorem c10_prompt_result_no_control_chars_witness : is_control 'a' = false :=
  c10_prompt_result_no_control_chars [Key.char 'a', Key.char '\n'] ['a']
    (by decide) 'a' (by decide)

end Svim
